import Mathlib

/-!
Verification of the DefenseShield/Warner scripts.

The repository consists of three standalone Python scripts:

* `Strata/cocuta.py` — builds a static `.docx` planning report with headings,
  paragraphs and two tables (route segments and a day-by-day timeline);
* `Strata/pathos.py` — loads Sentinel Hub credentials, downloads and caches a
  roads shapefile, fetches a satellite image and renders an interactive map;
* `VFPL/LizorGun.py` — configures a KrakenOS optical system with and without a
  YAG crystal, traces a bundle of rays and derives thermal and electrical
  quantities, driven by an interactive stdin command loop.

This file gives a shallow embedding of the parts of those scripts that the
verified properties are about: the straight-line control flow is embedded as
trace-producing functions on explicit inputs, the numeric code over `ℚ`
(exact rational shadows of the scripts' arithmetic) and `ℝ` where the code is
transcendental, and fallible steps as explicit branch parameters.
-/

namespace Warner

/-! ## Error-handling inventory

Every `try/except` block in the repository, with the exception class its
handler catches and what the handler does.  There are exactly four:

* `pathos.py` lines 87-92: `except Exception as e` around `gpd.read_file`,
  prints the exception and calls `exit()`;
* `pathos.py` lines 136-141: `except Exception as e` around the initial
  `request.get_data`, prints the exception and calls `exit()`;
* `pathos.py` lines 221-225 (inside `on_click`): `except Exception as e`
  around `new_request.get_data`, prints the exception and then `return`s from
  the callback without terminating the process;
* `LizorGun.py` lines 165-177 (inside `calculate_peak_power_for_temp`):
  `except AttributeError`, prints a warning and falls back to an analytic
  spot-size estimate instead of terminating.

`cocuta.py` contains no `try/except` block.
-/

/-- Exception class named by an `except` clause in the repository. -/
inductive ExcClass
  | baseException
  | attributeError
deriving DecidableEq, Repr

/-- What a handler body does after (possibly) printing. -/
inductive HandlerBehavior
  | printThenExit
  | printThenReturn
  | printThenFallback
deriving DecidableEq, Repr

/-- One `try/except` block of the repository. -/
structure TryExceptBlock where
  location : String
  catches : ExcClass
  behavior : HandlerBehavior
deriving DecidableEq, Repr

/-- The `try/except` block around `gpd.read_file` in `pathos.py`. -/
def roadsLoadBlock : TryExceptBlock :=
  { location := "pathos.py:87 roads load",
    catches := .baseException, behavior := .printThenExit }

/-- All `try/except` blocks occurring in the repository, in source order. -/
def repoTryExcepts : List TryExceptBlock :=
  [ roadsLoadBlock,
    { location := "pathos.py:136 initial satellite download",
      catches := .baseException, behavior := .printThenExit },
    { location := "pathos.py:221 on_click satellite download",
      catches := .baseException, behavior := .printThenReturn },
    { location := "LizorGun.py:165 calculate_peak_power_for_temp",
      catches := .attributeError, behavior := .printThenFallback } ]

/-! ## cocuta.py — document tables -/

namespace Cocuta

/-- One `table.cell(row, col).text = ...` assignment performed by
`add_table`. -/
structure CellWrite where
  row : ℕ
  col : ℕ
  text : String
deriving DecidableEq, Repr

/-- Embedding of `add_table(data, headers)` from `cocuta.py`: the table is
created with `rows = len(data) + 1` and `cols = len(headers)`; the first
returned component is that `(rows, cols)` pair and the second is the list of
cell writes the function performs (headers into row 0, then each data row
`row_data` at index `row_idx` counted from 1, each cell at its column
index). -/
def add_table (data : List (List String)) (headers : List String) :
    (ℕ × ℕ) × List CellWrite :=
  ((data.length + 1, headers.length),
    (headers.enum.map fun p => { row := 0, col := p.1, text := p.2 }) ++
      data.enum.flatMap fun rp =>
        rp.2.enum.map fun cp => { row := rp.1 + 1, col := cp.1, text := cp.2 })

/-- The `route_data` literal of `cocuta.py`. -/
def route_data : List (List String) :=
  [ ["1", "Bogotá → Cúcuta, Colombia", "560 km", "Troncal 55, Troncal 66",
     "10-12 hours",
     "Border area with Venezuela, potential instability. Military escort recommended."],
    ["2", "Cúcuta → Cartagena, Colombia", "430 km", "Troncal 45, Route 90",
     "8 hours", "Preparation for maritime/air transport to Panama."],
    ["3", "Cartagena → Panama City", "600 km (gap)", "Maritime/Air",
     "12-24 hours", "Coordinate with military ports or airports."],
    ["4", "Panama City → San José, Costa Rica", "530 km",
     "Pan-American Highway (CA-1)", "8-10 hours",
     "Border crossing at Paso Canoas, strict documentation."],
    ["5", "San José → Managua, Nicaragua", "430 km",
     "Pan-American Highway (CA-1)", "7-8 hours",
     "Political risks in Nicaragua, maintain low profile."],
    ["6", "Managua → Tegucigalpa, Honduras", "400 km", "CA-1, CA-3",
     "7-8 hours", "Areas with criminal activity, use armed escorts."],
    ["7", "Tegucigalpa → Guatemala City", "360 km", "CA-5, CA-13, CA-9",
     "6-7 hours", "Avoid gang areas, coordinate with Guatemalan army."],
    ["8", "Guatemala City → Tapachula, Mexico", "250 km", "CA-1, Mexico 200",
     "5-6 hours", "Border with high migratory activity, reinforce security."],
    ["9", "Tapachula → Mexico City", "1,100 km", "Mexico 200, Mexico 150D",
     "14-16 hours", "Use toll highways, avoid cartel zones."],
    ["10", "Mexico City → Ciudad Juárez", "1,800 km",
     "Mexico 57D, Mexico 45D", "20-22 hours",
     "Escorted convoys in Chihuahua, military presence in Juárez."] ]

/-- Header row passed with `route_data`. -/
def route_headers : List String :=
  ["No.", "Segment", "Distance", "Highway", "Estimated Time", "Notes"]

/-- The `timeline_data` literal of `cocuta.py`. -/
def timeline_data : List (List String) :=
  [ ["Day 1", "Bogotá → Cúcuta", "560 km", "10-12 hours",
     "Overnight in Cúcuta, security review."],
    ["Day 2", "Cúcuta → Cartagena", "430 km", "8 hours",
     "Preparation for Panama transfer."],
    ["Day 3", "Cartagena → Panama City", "600 km (gap)", "12-24 hours",
     "Maritime/air logistics."],
    ["Day 4", "Panama City → San José", "530 km", "8-10 hours",
     "Rest in San José."],
    ["Day 5", "San José → Managua", "430 km", "7-8 hours",
     "Border review in Nicaragua."],
    ["Day 6", "Managua → Tegucigalpa", "400 km", "7-8 hours",
     "Overnight in Tegucigalpa, enhanced security."],
    ["Day 7", "Tegucigalpa → Guatemala City", "360 km", "6-7 hours",
     "Coordination with Guatemala."],
    ["Day 8", "Guatemala City → Tapachula", "250 km", "5-6 hours",
     "Entry to Mexico, customs inspection."],
    ["Day 9", "Tapachula → Mexico City", "1,100 km", "14-16 hours",
     "Rest in Mexico City."],
    ["Day 10", "Mexico City → Ciudad Juárez", "1,800 km", "20-22 hours",
     "Arrival at destination."] ]

/-- Header row passed with `timeline_data`. -/
def timeline_headers : List String :=
  ["Day", "Segment", "Distance", "Time", "Notes"]

/-- A cell write is in bounds for a `(rows, cols)` table shape. -/
def inBounds (shape : ℕ × ℕ) (w : CellWrite) : Prop :=
  w.row < shape.1 ∧ w.col < shape.2

instance (shape : ℕ × ℕ) (w : CellWrite) : Decidable (inBounds shape w) :=
  inferInstanceAs (Decidable (_ ∧ _))

end Cocuta

/-! ## pathos.py — credential guard, shapefile cache, satellite fetch

The top-level script of `pathos.py` is embedded as a trace-producing function:
the externally observable steps (prints, process exit, network requests, file
system operations, plotting) become constructors of `Action`, and every
fallible external call becomes an explicit parameter of the environment
(`Env`) selecting which branch the script takes.  The trace of a run is the
list of actions the script performs before it either exits or reaches
`plt.show()`.
-/

namespace Pathos

/-- Externally observable step of `pathos.py`. -/
inductive Action
  | printMsg (s : String)
  | exitProc
  | mkdirShapefiles
  | createTempDir
  | httpGetShapefile
  | writeZipFile
  | extractZip
  | moveComponent (ext : String)
  | removeTempDir
  | loadRoads
  | sentinelDownload
  | showPlot
deriving DecidableEq, Repr

/-- Python truthiness of an `os.getenv` result: `None` and the empty string
are falsy, any other string is truthy. -/
def truthy : Option String → Bool
  | none => false
  | some s => !s.isEmpty

/-- Environment of one run of `pathos.py`: the three credential values read
from `.env`, whether `data/shapefiles/gis_osm_roads_free_1.shp` already
exists, the HTTP status code of the Geofabrik download, whether
`gis_osm_roads_free_1.shp` is found in the extracted archive, and whether the
two remaining fallible calls (`gpd.read_file`, `request.get_data`)
succeed. -/
structure Env where
  instanceId : Option String
  clientId : Option String
  clientSecret : Option String
  shpExists : Bool
  status : ℕ
  roadsFound : Bool
  roadsLoadOk : Bool
  imageOk : Bool

/-- The script from `roads = gpd.read_file(...)` (line 87) to `plt.show()`:
load the roads (printing the exception and exiting on failure), request the
initial satellite image (printing two messages and exiting on failure), then
render the interactive plot. -/
def afterShapefile (e : Env) : List Action :=
  if e.roadsLoadOk then
    [Action.loadRoads,
     Action.printMsg "Descargando imagen satelital inicial desde Sentinel Hub...",
     Action.sentinelDownload] ++
      (if e.imageOk then
        [Action.showPlot]
      else
        [Action.printMsg "Error al descargar la imagen satelital inicial",
         Action.printMsg "Verifica tu conexion o las credenciales en .env.",
         Action.exitProc])
  else
    [Action.loadRoads, Action.printMsg "Error al cargar carreteras",
     Action.exitProc]

/-- Embedding of the top-level flow of `pathos.py` (lines 23-263): the
credential guard, the shapefile cache check with its download / extract /
move branch, and `afterShapefile`.  Each branch that reaches `exit()` ends
its trace with `Action.exitProc` and performs nothing afterwards. -/
def runScript (e : Env) : List Action :=
  if !(truthy e.instanceId && truthy e.clientId && truthy e.clientSecret) then
    [Action.printMsg "Faltan credenciales de Sentinel Hub en el archivo .env.",
     Action.printMsg "Asegurate de tener SENTINEL_INSTANCE_ID, SENTINEL_CLIENT_ID y SENTINEL_CLIENT_SECRET.",
     Action.exitProc]
  else
    [Action.mkdirShapefiles] ++
      (if !e.shpExists then
        [Action.createTempDir,
         Action.printMsg "Descargando shapefile desde Geofabrik...",
         Action.httpGetShapefile] ++
          (if e.status = 200 then
            [Action.writeZipFile,
             Action.printMsg "Descomprimiendo shapefile...",
             Action.extractZip] ++
              (if e.roadsFound then
                [Action.moveComponent ".shp", Action.moveComponent ".shx",
                 Action.moveComponent ".dbf", Action.moveComponent ".prj",
                 Action.removeTempDir,
                 Action.printMsg "Shapefile descargado y guardado localmente."] ++
                  afterShapefile e
              else
                [Action.printMsg "No se encontro gis_osm_roads_free_1.shp.",
                 Action.removeTempDir, Action.exitProc])
          else
            [Action.printMsg "Error al descargar el shapefile.",
             Action.exitProc])
      else
        [Action.printMsg "Shapefile ya existe localmente, usando la version guardada."] ++
          afterShapefile e)

/-- A configuration value is absent in the sense of the credential guard:
unset, or set to the empty string. -/
def absent (c : Option String) : Prop :=
  c = none ∨ c = some ""

instance (c : Option String) : Decidable (absent c) :=
  inferInstanceAs (Decidable (_ ∨ _))

/-- Actions that perform a download, write a file, or plot. -/
def isWork : Action → Bool
  | Action.httpGetShapefile => true
  | Action.sentinelDownload => true
  | Action.writeZipFile => true
  | Action.extractZip => true
  | Action.moveComponent _ => true
  | Action.showPlot => true
  | _ => false

/-- The four shapefile component extensions moved into `data/shapefiles`. -/
def componentExts : List String :=
  [".shp", ".shx", ".dbf", ".prj"]

/-- A run with the instance id set to the empty string (absent in the sense
of the credential guard). -/
def missingCredEnv : Env :=
  { instanceId := some "", clientId := some "id", clientSecret := some "secret",
    shpExists := false, status := 200, roadsFound := true,
    roadsLoadOk := true, imageOk := true }

/-- A run with full credentials, no cached shapefile, and a failing
(HTTP 404) shapefile download. -/
def failedDownloadEnv : Env :=
  { instanceId := some "inst", clientId := some "id", clientSecret := some "secret",
    shpExists := false, status := 404, roadsFound := true,
    roadsLoadOk := true, imageOk := true }

/-- A fully successful run with no cached shapefile. -/
def happyEnv : Env :=
  { instanceId := some "inst", clientId := some "id", clientSecret := some "secret",
    shpExists := false, status := 200, roadsFound := true,
    roadsLoadOk := true, imageOk := true }

end Pathos

/-! ## LizorGun.py — laser simulation

Constants are embedded over `ℚ` (all the literals of the script are decimal
and hence exact rationals); the blackbody calculation, which uses `np.exp`,
is embedded over `ℝ`.
-/

namespace LizorGun

/-- Optical-system parameter `OBJ_THICKNESS` (line 23). -/
def OBJ_THICKNESS : ℚ := 10.0

/-- Optical-system parameter `YAG_THICKNESS` (line 24). -/
def YAG_THICKNESS : ℚ := 5.0

/-- Optical-system parameter `YAG_TO_LENS` (line 25). -/
def YAG_TO_LENS : ℚ := 20.0

/-- Lens front radius `L1A_RADIUS` (line 26). -/
def L1A_RADIUS : ℚ := 92.84706570002484

/-- Lens front thickness `L1A_THICKNESS` (line 27). -/
def L1A_THICKNESS : ℚ := 6.0

/-- Lens middle radius `L1B_RADIUS` (line 28). -/
def L1B_RADIUS : ℚ := -30.71608670000159

/-- Lens middle thickness `L1B_THICKNESS` (line 29). -/
def L1B_THICKNESS : ℚ := 3.0

/-- Lens back radius `L1C_RADIUS` (line 30). -/
def L1C_RADIUS : ℚ := -78.19730726078505

/-- Lens back thickness `L1C_THICKNESS` (line 31). -/
def L1C_THICKNESS : ℚ := 97.37604742910693

/-- Aperture `DIAMETER_OBJ` (line 32). -/
def DIAMETER_OBJ : ℚ := 30.0

/-- Aperture `DIAMETER_YAG` (line 33). -/
def DIAMETER_YAG : ℚ := 10.0

/-- Aperture `DIAMETER_LENS` (line 34). -/
def DIAMETER_LENS : ℚ := 30.0

/-- Aperture `DIAMETER_IMA` (line 35). -/
def DIAMETER_IMA : ℚ := 100.0

/-- Wavelength in microns, `WAVELENGTH` (line 36). -/
def WAVELENGTH : ℚ := 1.064

/-- Ray-tracing grid half-width `GRID_SIZE` (line 39). -/
def GRID_SIZE : ℤ := 5

/-- Ray-tracing beam radius `BEAM_RADIUS` (line 40). -/
def BEAM_RADIUS : ℚ := 10.0

/-- Initial spark frequency `INITIAL_FREQ` (line 43). -/
def INITIAL_FREQ : ℚ := 250.0

/-- A `KrakenOS` surface as configured by the script: the fields
`setup_optical_system` assigns (`Rc`, `Thickness`, `Glass`, `Diameter`, and
the optional `Color` and `Name`). -/
structure Surf where
  rc : ℚ
  thickness : ℚ
  glass : String
  diameter : ℚ
  color : Option (ℚ × ℚ × ℚ) := none
  name : Option String := none
deriving DecidableEq, Repr

/-- Embedding of `setup_optical_system(include_yag)` (lines 83-146): the
retained value is the ordered surface list
`A = [P_Obj, YAG_entrance, YAG_exit, L1a, L1b, L1c, P_Ima]` handed to
`Kos.system`.  With `include_yag` the object plane is 10 units before a
5-unit YAG gap and a 20-unit gap to the lens; without it the object plane
thickness absorbs both gaps (`OBJ_THICKNESS + YAG_THICKNESS + YAG_TO_LENS`)
and the two YAG surfaces get thickness `0.0`. -/
def setup_optical_system (include_yag : Bool) : List Surf :=
  let pObj : Surf :=
    { rc := 0.0
      thickness :=
        if include_yag then OBJ_THICKNESS
        else OBJ_THICKNESS + YAG_THICKNESS + YAG_TO_LENS
      glass := "AIR"
      diameter := DIAMETER_OBJ }
  let yagEntrance : Surf :=
    { rc := 0.0
      thickness := if include_yag then YAG_THICKNESS else 0.0
      glass := "AIR"
      diameter := DIAMETER_YAG }
  let yagExit : Surf :=
    { rc := 0.0
      thickness := if include_yag then YAG_TO_LENS else 0.0
      glass := "AIR"
      diameter := DIAMETER_YAG }
  let l1a : Surf :=
    { rc := L1A_RADIUS, thickness := L1A_THICKNESS, glass := "BK7"
      diameter := DIAMETER_LENS, color := some (0.8, 0.7, 0.4) }
  let l1b : Surf :=
    { rc := L1B_RADIUS, thickness := L1B_THICKNESS, glass := "F2"
      diameter := DIAMETER_LENS, color := some (0.7, 0.4, 0.4) }
  let l1c : Surf :=
    { rc := L1C_RADIUS, thickness := L1C_THICKNESS, glass := "AIR"
      diameter := DIAMETER_LENS }
  let pIma : Surf :=
    { rc := 0.0, thickness := 0.0, glass := "AIR"
      diameter := DIAMETER_IMA, name := some "Image Plane" }
  [pObj, yagEntrance, yagExit, l1a, l1b, l1c, pIma]

/-- One traced ray: the source point handed to `optical_system.Trace` and its
direction cosines. -/
structure Ray where
  pSource : ℚ × ℚ × ℚ
  dCos : ℚ × ℚ × ℚ
deriving DecidableEq, Repr

/-- The loop indices `range(-GRID_SIZE, GRID_SIZE + 1)` of `trace_rays`. -/
def gridRange : List ℤ :=
  (List.range (2 * 5 + 1)).map fun n => (n : ℤ) - GRID_SIZE

/-- The ray traced from grid point `(i, j)`: source
`[(i/GRID_SIZE)*BEAM_RADIUS, (j/GRID_SIZE)*BEAM_RADIUS, 0.0]`, direction
cosines `[0.0, 0.0, 1.0]`. -/
def gridRay (i j : ℤ) : Ray :=
  { pSource := (((i : ℚ) / (GRID_SIZE : ℚ)) * BEAM_RADIUS,
                ((j : ℚ) / (GRID_SIZE : ℚ)) * BEAM_RADIUS, 0.0)
    dCos := (0.0, 0.0, 1.0) }

/-- Embedding of `trace_rays` (lines 149-161): after `rays.clean()` the double
loop traces and pushes one ray per grid point whose distance
`r = sqrt(x_0**2 + y_0**2)` from the axis satisfies `r < BEAM_RADIUS`.  The
guard is transcribed over `ℚ` as `x_0^2 + y_0^2 < BEAM_RADIUS^2`, which for
nonnegative reals is equivalent to the script's square-root comparison (see
`sqrt_guard_equiv`).  The value is the list of rays pushed, in loop order. -/
def trace_rays : List Ray :=
  gridRange.flatMap fun (i : ℤ) =>
    gridRange.filterMap fun (j : ℤ) =>
      let x0 : ℚ := ((i : ℚ) / (GRID_SIZE : ℚ)) * BEAM_RADIUS
      let y0 : ℚ := ((j : ℚ) / (GRID_SIZE : ℚ)) * BEAM_RADIUS
      if x0 ^ 2 + y0 ^ 2 < BEAM_RADIUS ^ 2 then some (gridRay i j) else none

/-- Integer form of `trace_rays`: the same list with the grid-point guard
rewritten over `ℤ` (`trace_rays_matches_int_guard` proves the two equal). -/
def trace_rays_int : List Ray :=
  gridRange.flatMap fun (i : ℤ) =>
    gridRange.filterMap fun (j : ℤ) =>
      if i * i + j * j < 25 then some (gridRay i j) else none

/-- Python's `str.lower()` on the input line, modelled as per-character
lowercasing. -/
def pyLower (s : String) : String :=
  ⟨s.data.map Char.toLower⟩

/-- How the main loop of one run ends: by the `break` on the `exit` command,
or by exhausting stdin (Python's `input()` then raises an uncaught
`EOFError`). -/
inductive LoopEnd
  | byExitCommand
  | byEndOfInput
deriving DecidableEq, Repr

/-- Result of running the main loop on a finite list of stdin lines. -/
structure LoopResult where
  sims : ℕ
  frequency : ℚ
  prompts : ℕ
  ended : LoopEnd
deriving DecidableEq, Repr

/-- Embedding of the main simulation loop (lines 214-224, body 225-290): each
iteration prints the prompt and reads a line; `exit` (lowercased) breaks,
`b` (lowercased) runs the full two-configuration simulation once and loops,
and any other line just loops.  `frequency` is the script's `frequency`
variable, which no statement of the loop body reassigns. -/
def mainLoop (frequency : ℚ) : List String → LoopResult
  | [] => { sims := 0, frequency := frequency, prompts := 1, ended := .byEndOfInput }
  | line :: rest =>
    let cmd := pyLower line
    if cmd = "exit" then
      { sims := 0, frequency := frequency, prompts := 1, ended := .byExitCommand }
    else if cmd = "b" then
      let r := mainLoop frequency rest
      { r with sims := r.sims + 1, prompts := r.prompts + 1 }
    else
      let r := mainLoop frequency rest
      { r with prompts := r.prompts + 1 }

/-- Physical constant `h` (line 66). -/
def hPlanck : ℝ := 6.626e-34

/-- Physical constant `c` (line 67). -/
def cLight : ℝ := 3e8

/-- Physical constant `k` (line 68). -/
def kBoltz : ℝ := 1.381e-23

/-- The exponent `x = h * c / (lambda_m * k * T)` of `planck` (line 72). -/
noncomputable def planckExponent (lambda_m T : ℝ) : ℝ :=
  hPlanck * cLight / (lambda_m * kBoltz * T)

/-- Embedding of `planck(lambda_m, T)` (lines 71-75): return `0` when the
exponent exceeds `700` (the overflow guard), otherwise
`(1 / lambda_m**5) / (exp x - 1)`. -/
noncomputable def planck (lambda_m T : ℝ) : ℝ :=
  let x := planckExponent lambda_m T
  if x > 700 then 0
  else (1 / lambda_m ^ 5) / (Real.exp x - 1)

end LizorGun

/-! ## The six-city shortest-path script

Modelled from the spec: the spec describes “several near-duplicate scripts”
that “build a small fixed-size graph of six named cities” with “five weighted
edges (distances in km)” and “compute shortest paths with a standard graph
algorithm”, asserting that “given fixed graph edges, the shortest path equals
the networkx result for the same weights”.  None of those scripts is among
the provided sources (`pathos.py` is a variant without the graph part), so
the graph, the script's shortest-path computation, and the networkx reference
are modelled here from the spec's words: nodes are the six cities (`Fin 6`),
an edge list carries the weights, the script side is the textbook
dynamic-programming shortest-path relaxation, and the networkx side is the
mathematical minimum over all simple paths, which is what
`networkx.shortest_path_length` returns for the same weights.  Distances are
`Option ℕ` with `none` playing the role of “unreachable” (`∞`).
-/

namespace CityGraph

/-- Modelled from the spec: one of the six hardcoded city nodes, identified
by its index in the script's node list. -/
abbrev Node := Fin 6

/-- Modelled from the spec: a weighted edge between two of the six cities
(distance in km, embedded as `ℕ`). -/
structure Edge where
  src : Node
  dst : Node
  w : ℕ
deriving DecidableEq, Repr

/-- Addition on `Option ℕ` distances, with `none` as `∞`. -/
def oadd : Option ℕ → Option ℕ → Option ℕ
  | some a, some b => some (a + b)
  | _, _ => none

/-- Minimum of two `Option ℕ` distances, with `none` as `∞`. -/
def omin : Option ℕ → Option ℕ → Option ℕ
  | some a, some b => some (min a b)
  | some a, none => some a
  | none, b => b

/-- Order on `Option ℕ` distances, with `none` as `∞`. -/
def ole : Option ℕ → Option ℕ → Prop
  | _, none => True
  | some a, some b => a ≤ b
  | none, some _ => False

instance (a b : Option ℕ) : Decidable (ole a b) := by
  unfold ole
  split <;> infer_instance

theorem ole_refl (a : Option ℕ) : ole a a := by
  cases a <;> simp [ole]

theorem ole_none_right (a : Option ℕ) : ole a none := by
  cases a <;> simp [ole]

theorem ole_trans {a b c : Option ℕ} (h₁ : ole a b) (h₂ : ole b c) : ole a c := by
  cases a <;> cases b <;> cases c <;> simp [ole] at * <;> omega

theorem ole_antisymm {a b : Option ℕ} (h₁ : ole a b) (h₂ : ole b a) : a = b := by
  cases a <;> cases b <;> simp [ole] at * <;> omega

theorem omin_ole_left (a b : Option ℕ) : ole (omin a b) a := by
  cases a <;> cases b <;> simp [ole, omin, ole_refl]

theorem omin_ole_right (a b : Option ℕ) : ole (omin a b) b := by
  cases a <;> cases b <;> simp [ole, omin, ole_refl]

theorem ole_omin {c a b : Option ℕ} (h₁ : ole c a) (h₂ : ole c b) :
    ole c (omin a b) := by
  cases a <;> cases b <;> cases c <;> simp [ole, omin] at * <;> omega

theorem omin_eq_left_or_right (a b : Option ℕ) : omin a b = a ∨ omin a b = b := by
  cases a with
  | none => right; simp [omin]
  | some x =>
    cases b with
    | none => left; simp [omin]
    | some y =>
      rcases Nat.le_total x y with h | h
      · left; simp [omin, Nat.min_eq_left h]
      · right; simp [omin, Nat.min_eq_right h]

theorem oadd_zero_left (a : Option ℕ) : oadd (some 0) a = a := by
  cases a <;> simp [oadd]

theorem oadd_zero_right (a : Option ℕ) : oadd a (some 0) = a := by
  cases a <;> simp [oadd]

theorem oadd_assoc (a b c : Option ℕ) :
    oadd (oadd a b) c = oadd a (oadd b c) := by
  cases a <;> cases b <;> cases c <;> simp [oadd] <;> omega

theorem oadd_ole_left (a b c : Option ℕ) (h : ole b c) :
    ole (oadd a b) (oadd a c) := by
  cases a <;> cases b <;> cases c <;> simp [ole, oadd] at * <;> omega

theorem ole_oadd_self (m a : Option ℕ) : ole a (oadd m a) := by
  cases m <;> cases a <;> simp [ole, oadd] <;> omega

/-- Minimum of a list of `Option ℕ` distances. -/
def listOmin : List (Option ℕ) → Option ℕ
  | [] => none
  | a :: l => omin a (listOmin l)

theorem listOmin_ole_of_mem {a : Option ℕ} {l : List (Option ℕ)}
    (h : a ∈ l) : ole (listOmin l) a := by
  induction l with
  | nil => cases h
  | cons b l ih =>
    rcases List.mem_cons.mp h with rfl | h
    · exact omin_ole_left _ _
    · exact ole_trans (omin_ole_right _ _) (ih h)

theorem ole_listOmin {c : Option ℕ} {l : List (Option ℕ)}
    (h : ∀ a ∈ l, ole c a) : ole c (listOmin l) := by
  induction l with
  | nil => exact ole_none_right c
  | cons b l ih =>
    exact ole_omin (h b (List.mem_cons_self b l))
      (ih fun a ha => h a (List.mem_cons_of_mem b ha))

theorem listOmin_eq_none_or_mem (l : List (Option ℕ)) :
    listOmin l = none ∨ listOmin l ∈ l := by
  induction l with
  | nil => left; rfl
  | cons b l ih =>
    rcases omin_eq_left_or_right b (listOmin l) with h | h
    · right; rw [listOmin, h]; exact List.mem_cons_self b l
    · rcases ih with h' | h'
      · left; rw [listOmin, h, h']
      · right; rw [listOmin, h]; exact List.mem_cons_of_mem b h'

/-- Modelled from the spec: the weight between two cities, the minimum `w`
over the (undirected) edges joining them, `none` when no edge joins them. -/
def wt (es : List Edge) (u v : Node) : Option ℕ :=
  listOmin (es.filterMap fun e =>
    if (e.src = u ∧ e.dst = v) ∨ (e.src = v ∧ e.dst = u) then some e.w else none)

/-- Weight of a vertex sequence: `none` for the empty sequence or whenever
two consecutive vertices are not joined by an edge, otherwise the sum of the
edge weights along it. -/
def pathWeight (es : List Edge) : List Node → Option ℕ
  | [] => none
  | [_] => some 0
  | u :: v :: rest => oadd (wt es u v) (pathWeight es (v :: rest))

/-- Modelled from the spec: the script side, a standard shortest-path
computation — `dist es k u v` is the dynamic-programming relaxation value
after `k` rounds (the minimum weight over walks from `u` to `v` that use at
most `k` edges). -/
def dist (es : List Edge) : ℕ → Node → Node → Option ℕ
  | 0, u, v => if u = v then some 0 else none
  | k + 1, u, v =>
    omin (dist es k u v)
      (listOmin ((List.finRange 6).map fun w => oadd (wt es u w) (dist es k w v)))

/-- All vertex sequences of length at most `n` over the six nodes. -/
def seqsUpTo : ℕ → List (List Node)
  | 0 => [[]]
  | n + 1 => [] :: (List.finRange 6).flatMap fun v => (seqsUpTo n).map (v :: ·)

/-- A sequence is a simple path from `u` to `v`: duplicate-free, starting at
`u` and ending at `v`. -/
def isPathFrom (u v : Node) (s : List Node) : Bool :=
  decide s.Nodup && s.head? == some u && s.getLast? == some v

/-- Modelled from the spec: the networkx reference value — the minimum weight
over all simple paths from `u` to `v`, which is what
`networkx.shortest_path_length` computes for the same weights. -/
def nx_shortest_path_length (es : List Edge) (u v : Node) : Option ℕ :=
  listOmin (((seqsUpTo 6).filter (isPathFrom u v)).map (pathWeight es))

/-- A sample five-edge graph on the six cities, used to instantiate the
shortest-path equivalence. -/
def sampleEdges : List Edge :=
  [⟨0, 1, 3⟩, ⟨1, 2, 4⟩, ⟨2, 3, 1⟩, ⟨3, 4, 2⟩, ⟨4, 5, 7⟩]

theorem dist_ole_pathWeight (es : List Edge) :
    ∀ (k : ℕ) (s : List Node) (u v : Node), s.head? = some u →
      s.getLast? = some v → s.length ≤ k + 1 →
      ole (dist es k u v) (pathWeight es s) := by
  intro k
  induction k with
  | zero =>
    intro s u v hh hl hlen
    cases s with
    | nil => simp at hh
    | cons a t =>
      cases t with
      | nil =>
        have ha : a = u := by simpa using hh
        subst ha
        have hv : a = v := by simpa using hl
        subst hv
        simp only [dist, if_pos rfl]
        exact ole_refl _
      | cons b t' => simp at hlen
  | succ k ih =>
    intro s u v hh hl hlen
    cases s with
    | nil => simp at hh
    | cons a t =>
      cases t with
      | nil =>
        have h1 := ih [a] u v hh hl (by simp)
        refine ole_trans ?_ h1
        simp only [dist]
        exact omin_ole_left _ _
      | cons b t' =>
        have ha : a = u := by simpa using hh
        subst ha
        have hl' : (b :: t').getLast? = some v := by
          rw [List.getLast?_cons_cons] at hl
          exact hl
        have hlen' : (b :: t').length ≤ k + 1 := by
          simp only [List.length_cons] at hlen ⊢
          omega
        have hib := ih (b :: t') b v rfl hl' hlen'
        have h1 : ole (oadd (wt es a b) (dist es k b v))
            (pathWeight es (a :: b :: t')) := by
          simp only [pathWeight]
          exact oadd_ole_left _ _ _ hib
        have h2 : ole (dist es (k + 1) a v) (oadd (wt es a b) (dist es k b v)) := by
          simp only [dist]
          refine ole_trans (omin_ole_right _ _) ?_
          exact listOmin_ole_of_mem (List.mem_map.mpr ⟨b, List.mem_finRange b, rfl⟩)
        exact ole_trans h2 h1

theorem dist_achieved (es : List Edge) :
    ∀ (k : ℕ) (u v : Node), dist es k u v = none ∨
      ∃ s : List Node, s.head? = some u ∧ s.getLast? = some v ∧
        s.length ≤ k + 1 ∧ pathWeight es s = dist es k u v := by
  intro k
  induction k with
  | zero =>
    intro u v
    by_cases h : u = v
    · right
      refine ⟨[u], rfl, ?_, by simp, ?_⟩
      · simpa using congrArg some h
      · simp [pathWeight, dist, h]
    · left
      simp [dist, h]
  | succ k ih =>
    intro u v
    rcases omin_eq_left_or_right (dist es k u v)
        (listOmin ((List.finRange 6).map fun w => oadd (wt es u w) (dist es k w v)))
      with h | h
    · have hd : dist es (k + 1) u v = dist es k u v := by
        simp only [dist]; exact h
      rcases ih u v with h0 | ⟨s, h1, h2, h3, h4⟩
      · left; rw [hd, h0]
      · right; exact ⟨s, h1, h2, by omega, by rw [h4, hd]⟩
    · have hd : dist es (k + 1) u v =
          listOmin ((List.finRange 6).map fun w => oadd (wt es u w) (dist es k w v)) := by
        simp only [dist]; exact h
      rcases listOmin_eq_none_or_mem
          ((List.finRange 6).map fun w => oadd (wt es u w) (dist es k w v))
        with h0 | h0
      · left; rw [hd, h0]
      · rcases List.mem_map.mp h0 with ⟨w, _, hval⟩
        cases hwt : wt es u w with
        | none => left; rw [hd, ← hval, hwt]; rfl
        | some a =>
          cases hdk : dist es k w v with
          | none => left; rw [hd, ← hval, hwt, hdk]; rfl
          | some b =>
            rcases ih w v with h5 | ⟨t, ht1, ht2, ht3, ht4⟩
            · rw [h5] at hdk; cases hdk
            · obtain ⟨t', rfl⟩ : ∃ t', t = w :: t' := by
                cases t with
                | nil => simp at ht1
                | cons x t' =>
                  have hx : x = w := by simpa using ht1
                  subst hx
                  exact ⟨t', rfl⟩
              right
              refine ⟨u :: w :: t', rfl, ?_, ?_, ?_⟩
              · rw [List.getLast?_cons_cons]; exact ht2
              · simp only [List.length_cons] at ht3 ⊢; omega
              · show oadd (wt es u w) (pathWeight es (w :: t')) = dist es (k + 1) u v
                rw [hwt, ht4, hdk, hd, ← hval, hwt, hdk]

theorem not_nodup_decomp {α : Type} [DecidableEq α] :
    ∀ l : List α, ¬ l.Nodup →
      ∃ (p : List α) (x : α) (q r : List α), l = p ++ x :: q ++ x :: r := by
  intro l
  induction l with
  | nil => intro h; exact absurd List.nodup_nil h
  | cons y t ih =>
    intro h
    by_cases hy : y ∈ t
    · rcases List.append_of_mem hy with ⟨q, r, rfl⟩
      exact ⟨[], y, q, r, rfl⟩
    · have hnt : ¬ t.Nodup := fun hn => h (List.nodup_cons.mpr ⟨hy, hn⟩)
      rcases ih hnt with ⟨p, x, q, r, rfl⟩
      exact ⟨y :: p, x, q, r, rfl⟩

theorem pathWeight_append_cons (es : List Edge) (x : Node) (q : List Node) :
    ∀ p : List Node, pathWeight es (p ++ x :: q) =
      oadd (pathWeight es (p ++ [x])) (pathWeight es (x :: q))
  | [] => by
    show pathWeight es (x :: q) = oadd (pathWeight es [x]) (pathWeight es (x :: q))
    rw [show pathWeight es [x] = some 0 from rfl, oadd_zero_left]
  | [y] => by
    show oadd (wt es y x) (pathWeight es (x :: q)) =
      oadd (oadd (wt es y x) (pathWeight es [x])) (pathWeight es (x :: q))
    rw [show pathWeight es [x] = some 0 from rfl, oadd_zero_right]
  | y :: z :: p => by
    have ih := pathWeight_append_cons es x q (z :: p)
    show oadd (wt es y z) (pathWeight es ((z :: p) ++ x :: q)) =
      oadd (oadd (wt es y z) (pathWeight es ((z :: p) ++ [x])))
        (pathWeight es (x :: q))
    rw [ih, ← oadd_assoc]

theorem pathWeight_shorten (es : List Edge) :
    ∀ (n : ℕ) (s : List Node) (u v : Node), s.length ≤ n →
      s.head? = some u → s.getLast? = some v →
      ∃ t : List Node, t.Nodup ∧ t.head? = some u ∧ t.getLast? = some v ∧
        ole (pathWeight es t) (pathWeight es s) := by
  intro n
  induction n with
  | zero =>
    intro s u v hlen hh hl
    cases s with
    | nil => simp at hh
    | cons a t => simp at hlen
  | succ n ih =>
    intro s u v hlen hh hl
    by_cases hnd : s.Nodup
    · exact ⟨s, hnd, hh, hl, ole_refl _⟩
    · rcases not_nodup_decomp s hnd with ⟨p, x, q, r, rfl⟩
      have hlen' : (p ++ x :: r).length ≤ n := by
        simp only [List.length_append, List.length_cons] at hlen ⊢
        omega
      have hh' : (p ++ x :: r).head? = some u := by
        cases p with
        | nil => simpa using hh
        | cons a p' => simpa using hh
      have hl' : (p ++ x :: r).getLast? = some v := by
        rw [List.getLast?_append_cons (p ++ x :: q) x r] at hl
        rw [List.getLast?_append_cons p x r]
        exact hl
      have hw : ole (pathWeight es (p ++ x :: r))
          (pathWeight es (p ++ x :: q ++ x :: r)) := by
        have hassoc : p ++ x :: q ++ x :: r = p ++ x :: (q ++ x :: r) := by simp
        rw [hassoc]
        rw [pathWeight_append_cons es x (q ++ x :: r) p,
          pathWeight_append_cons es x r p]
        apply oadd_ole_left
        show ole (pathWeight es (x :: r)) (pathWeight es ((x :: q) ++ x :: r))
        rw [pathWeight_append_cons es x r (x :: q)]
        exact ole_oadd_self _ _
      rcases ih (p ++ x :: r) u v hlen' hh' hl' with ⟨t, ht1, ht2, ht3, ht4⟩
      exact ⟨t, ht1, ht2, ht3, ole_trans ht4 hw⟩

theorem nodup_length_le_six {t : List Node} (h : t.Nodup) : t.length ≤ 6 := by
  have h1 := List.Nodup.length_le_card h
  simpa using h1

theorem seqsUpTo_complete :
    ∀ (n : ℕ) (s : List Node), s.length ≤ n → s ∈ seqsUpTo n := by
  intro n
  induction n with
  | zero =>
    intro s h
    cases s with
    | nil => simp [seqsUpTo]
    | cons a t => simp at h
  | succ n ih =>
    intro s h
    cases s with
    | nil => simp [seqsUpTo]
    | cons a t =>
      refine List.mem_cons.mpr (Or.inr ?_)
      refine List.mem_flatMap.mpr ⟨a, List.mem_finRange a, ?_⟩
      refine List.mem_map.mpr ⟨t, ih t ?_, rfl⟩
      simpa using Nat.succ_le_succ_iff.mp (by simpa using h)

/-- The shortest-path equivalence, for arbitrary edge lists on the six
nodes: the dynamic-programming value after five relaxation rounds equals the
minimum simple-path weight. -/
theorem dist_eq_nx (es : List Edge) (u v : Node) :
    dist es 5 u v = nx_shortest_path_length es u v := by
  apply ole_antisymm
  · apply ole_listOmin
    intro a ha
    rcases List.mem_map.mp ha with ⟨t, ht, rfl⟩
    rcases List.mem_filter.mp ht with ⟨_, htp⟩
    simp only [isPathFrom, Bool.and_eq_true, decide_eq_true_eq, beq_iff_eq] at htp
    exact dist_ole_pathWeight es 5 t u v htp.1.2 htp.2
      (le_trans (nodup_length_le_six htp.1.1) (by norm_num))
  · rcases dist_achieved es 5 u v with h | ⟨s, h1, h2, h3, h4⟩
    · rw [h]; exact ole_none_right _
    · rcases pathWeight_shorten es 6 s u v h3 h1 h2 with ⟨t, htn, hth, htl, htw⟩
      have htmem : t ∈ seqsUpTo 6 := seqsUpTo_complete 6 t (nodup_length_le_six htn)
      have htfil : t ∈ (seqsUpTo 6).filter (isPathFrom u v) :=
        List.mem_filter.mpr ⟨htmem, by simp [isPathFrom, htn, hth, htl]⟩
      have hnx : ole (nx_shortest_path_length es u v) (pathWeight es t) :=
        listOmin_ole_of_mem (List.mem_map.mpr ⟨t, htfil, rfl⟩)
      rw [← h4]
      exact ole_trans hnx htw

end CityGraph

/-! ## Supporting lemmas for the LizorGun embeddings -/

namespace LizorGun

/-- Justification of the guard transcription in `trace_rays`: over the reals,
`sqrt (x^2 + y^2) < b` is equivalent to `x^2 + y^2 < b^2` whenever
`0 < b`. -/
theorem sqrt_guard_equiv (x y b : ℝ) (hb : 0 < b) :
    Real.sqrt (x ^ 2 + y ^ 2) < b ↔ x ^ 2 + y ^ 2 < b ^ 2 :=
  Real.sqrt_lt' hb

/-- The rational grid-point guard of `trace_rays` agrees with the integer
guard of `trace_rays_int`. -/
theorem guard_iff (i j : ℤ) :
    (((i : ℚ) / (GRID_SIZE : ℚ)) * BEAM_RADIUS) ^ 2 +
        (((j : ℚ) / (GRID_SIZE : ℚ)) * BEAM_RADIUS) ^ 2 < BEAM_RADIUS ^ 2 ↔
      i * i + j * j < 25 := by
  have h5 : ((GRID_SIZE : ℤ) : ℚ) = 5 := by norm_num [GRID_SIZE]
  have hb : BEAM_RADIUS = 10 := by norm_num [BEAM_RADIUS]
  rw [h5, hb]
  rw [show ((i : ℚ) / 5) * 10 = 2 * i by ring,
    show ((j : ℚ) / 5) * 10 = 2 * j by ring]
  constructor
  · intro h
    have h1 : (i * i + j * j : ℚ) < 25 := by nlinarith
    exact_mod_cast h1
  · intro h
    have h1 : (i * i + j * j : ℚ) < 25 := by exact_mod_cast h
    nlinarith

theorem trace_rays_matches_int_guard : trace_rays = trace_rays_int := by
  simp only [trace_rays, trace_rays_int, guard_iff]

theorem gridRay_inj {i j i' j' : ℤ} (h : gridRay i j = gridRay i' j') :
    i = i' ∧ j = j' := by
  have h5 : ((GRID_SIZE : ℤ) : ℚ) = 5 := by norm_num [GRID_SIZE]
  have hb : BEAM_RADIUS = 10 := by norm_num [BEAM_RADIUS]
  simp only [gridRay, Ray.mk.injEq, Prod.mk.injEq] at h
  obtain ⟨⟨hx, hy, -⟩, -⟩ := h
  rw [h5, hb] at hx hy
  constructor
  · have h1 : (i : ℚ) = i' := by
      field_simp at hx
      exact_mod_cast hx
    exact_mod_cast h1
  · have h1 : (j : ℚ) = j' := by
      field_simp at hy
      exact_mod_cast hy
    exact_mod_cast h1

theorem mem_trace_rays {r : Ray} :
    r ∈ trace_rays ↔
      ∃ i ∈ gridRange, ∃ j ∈ gridRange, i * i + j * j < 25 ∧ gridRay i j = r := by
  rw [trace_rays_matches_int_guard]
  simp only [trace_rays_int, List.mem_flatMap, List.mem_filterMap,
    Option.ite_none_right_eq_some, Option.some.injEq]

theorem mainLoop_ended_iff (freq : ℚ) (input : List String) :
    (mainLoop freq input).ended = LoopEnd.byExitCommand ↔
      ∃ l ∈ input, pyLower l = "exit" := by
  induction input with
  | nil => simp [mainLoop]
  | cons line rest ih =>
    by_cases he : pyLower line = "exit"
    · simp [mainLoop, he]
    · by_cases hb : pyLower line = "b"
      · simp [mainLoop, he, hb, ih]
      · simp [mainLoop, he, hb, ih]

theorem mainLoop_sims (freq : ℚ) (input : List String) :
    (mainLoop freq input).sims =
      (input.takeWhile fun l => !(pyLower l == "exit")).countP
        (fun l => pyLower l == "b") := by
  induction input with
  | nil => simp [mainLoop]
  | cons line rest ih =>
    by_cases he : pyLower line = "exit"
    · simp [mainLoop, he, List.takeWhile_cons]
    · by_cases hb : pyLower line = "b"
      · simp [mainLoop, he, hb, ih, List.takeWhile_cons, List.countP_cons]
      · simp [mainLoop, he, hb, ih, List.takeWhile_cons, List.countP_cons]

theorem mainLoop_frequency (freq : ℚ) (input : List String) :
    (mainLoop freq input).frequency = freq := by
  induction input with
  | nil => rfl
  | cons line rest ih =>
    by_cases he : pyLower line = "exit"
    · simp [mainLoop, he]
    · by_cases hb : pyLower line = "b"
      · simp [mainLoop, he, hb, ih]
      · simp [mainLoop, he, hb, ih]

end LizorGun

/-! ## Claimed properties -/

/-- C1: the claim that every `try/except` handler in the repository catches
the base exception class and terminates via `exit()` is false — refuted by
the inventory of handlers, which contains the `on_click` handler (returns
without terminating) and the `calculate_peak_power_for_temp` handler
(catches `AttributeError` and computes a fallback). -/
theorem c1_not_all_handlers_exit :
    ¬ ∀ b ∈ repoTryExcepts,
        b.catches = ExcClass.baseException ∧
        b.behavior = HandlerBehavior.printThenExit := by
  decide

/-- C1 (amended): every `try/except` handler in the repository prints and
then exits, except for exactly two: the `on_click` satellite-download handler
catches the base exception class, prints, and returns from the callback, and
the `calculate_peak_power_for_temp` handler catches `AttributeError`, prints
a warning, and falls back to an analytic estimate. -/
theorem c1_handler_inventory (b : TryExceptBlock) (hb : b ∈ repoTryExcepts) :
    (b.catches = ExcClass.baseException ∧
      b.behavior = HandlerBehavior.printThenExit) ∨
    (b.location = "pathos.py:221 on_click satellite download" ∧
      b.catches = ExcClass.baseException ∧
      b.behavior = HandlerBehavior.printThenReturn) ∨
    (b.location = "LizorGun.py:165 calculate_peak_power_for_temp" ∧
      b.catches = ExcClass.attributeError ∧
      b.behavior = HandlerBehavior.printThenFallback) := by
  fin_cases hb <;> decide

/-- Instantiation of `c1_handler_inventory` at the roads-load handler. -/
theorem c1_handler_inventory_witness :
    (roadsLoadBlock.catches = ExcClass.baseException ∧
      roadsLoadBlock.behavior = HandlerBehavior.printThenExit) ∨
    (roadsLoadBlock.location = "pathos.py:221 on_click satellite download" ∧
      roadsLoadBlock.catches = ExcClass.baseException ∧
      roadsLoadBlock.behavior = HandlerBehavior.printThenReturn) ∨
    (roadsLoadBlock.location = "LizorGun.py:165 calculate_peak_power_for_temp" ∧
      roadsLoadBlock.catches = ExcClass.attributeError ∧
      roadsLoadBlock.behavior = HandlerBehavior.printThenFallback) :=
  c1_handler_inventory roadsLoadBlock (by decide)

/-- C2 (modelled from the spec): for every weighted graph on the six city
nodes with five edges, the script's shortest-path computation (the
dynamic-programming relaxation `dist · 5`) agrees with the networkx result
(the minimum simple-path weight) for the same weights, at every pair of
nodes. -/
theorem c2_shortest_path_matches_networkx (es : List CityGraph.Edge)
    (_hlen : es.length = 5) (u v : CityGraph.Node) :
    CityGraph.dist es 5 u v = CityGraph.nx_shortest_path_length es u v :=
  CityGraph.dist_eq_nx es u v

/-- Instantiation of `c2_shortest_path_matches_networkx` on the sample
five-edge graph. -/
theorem c2_shortest_path_matches_networkx_witness :
    CityGraph.dist CityGraph.sampleEdges 5 0 5 =
      CityGraph.nx_shortest_path_length CityGraph.sampleEdges 0 5 :=
  c2_shortest_path_matches_networkx CityGraph.sampleEdges rfl 0 5

/-- C3: if any of the three Sentinel Hub configuration values is absent
(`None` or empty), `pathos.py` prints its two messages and exits
immediately; in particular the run performs no download, file write, or
plotting. -/
theorem c3_credential_guard (e : Pathos.Env)
    (h : Pathos.absent e.instanceId ∨ Pathos.absent e.clientId ∨
      Pathos.absent e.clientSecret) :
    Pathos.runScript e =
      [Pathos.Action.printMsg
          "Faltan credenciales de Sentinel Hub en el archivo .env.",
        Pathos.Action.printMsg
          "Asegurate de tener SENTINEL_INSTANCE_ID, SENTINEL_CLIENT_ID y SENTINEL_CLIENT_SECRET.",
        Pathos.Action.exitProc] ∧
    ∀ a ∈ Pathos.runScript e, Pathos.isWork a = false := by
  have hemp : ("" : String).isEmpty = true := rfl
  have hfalse : (Pathos.truthy e.instanceId && Pathos.truthy e.clientId &&
      Pathos.truthy e.clientSecret) = false := by
    rcases h with h | h | h <;> rcases h with h | h <;>
      simp [Pathos.truthy, h, hemp]
  have htrace : Pathos.runScript e =
      [Pathos.Action.printMsg
          "Faltan credenciales de Sentinel Hub en el archivo .env.",
        Pathos.Action.printMsg
          "Asegurate de tener SENTINEL_INSTANCE_ID, SENTINEL_CLIENT_ID y SENTINEL_CLIENT_SECRET.",
        Pathos.Action.exitProc] := by
    simp [Pathos.runScript, hfalse]
  refine ⟨htrace, ?_⟩
  rw [htrace]
  decide

/-- Instantiation of `c3_credential_guard` at a run whose instance id is the
empty string. -/
theorem c3_credential_guard_witness :
    Pathos.runScript Pathos.missingCredEnv =
      [Pathos.Action.printMsg
          "Faltan credenciales de Sentinel Hub en el archivo .env.",
        Pathos.Action.printMsg
          "Asegurate de tener SENTINEL_INSTANCE_ID, SENTINEL_CLIENT_ID y SENTINEL_CLIENT_SECRET.",
        Pathos.Action.exitProc] :=
  (c3_credential_guard Pathos.missingCredEnv (by decide)).1

/-- C4: the main simulation loop breaks out (rather than running off the end
of stdin) iff some input line lowercases to `exit`; the number of simulation
runs equals the number of lines lowercasing to `b` before the first `exit`
line; the `frequency` state is never changed; and any line that lowercases
to neither `exit` nor `b` behaves exactly like skipping the line after one
more prompt. -/
theorem c4_main_loop (freq : ℚ) (input : List String) :
    ((LizorGun.mainLoop freq input).ended = LizorGun.LoopEnd.byExitCommand ↔
      ∃ l ∈ input, LizorGun.pyLower l = "exit") ∧
    (LizorGun.mainLoop freq input).sims =
      (input.takeWhile fun l => !(LizorGun.pyLower l == "exit")).countP
        (fun l => LizorGun.pyLower l == "b") ∧
    (LizorGun.mainLoop freq input).frequency = freq ∧
    ∀ l rest, LizorGun.pyLower l ≠ "exit" → LizorGun.pyLower l ≠ "b" →
      LizorGun.mainLoop freq (l :: rest) =
        { LizorGun.mainLoop freq rest with
            prompts := (LizorGun.mainLoop freq rest).prompts + 1 } := by
  refine ⟨LizorGun.mainLoop_ended_iff freq input,
    LizorGun.mainLoop_sims freq input,
    LizorGun.mainLoop_frequency freq input, ?_⟩
  intro l rest he hb
  simp [LizorGun.mainLoop, he, hb]

/-- Instantiation of `c4_main_loop`: the run on `["A", "b", "Exit", "b"]`
terminates by the `exit` command. -/
theorem c4_main_loop_witness :
    (LizorGun.mainLoop 250 ["A", "b", "Exit", "b"]).ended =
      LizorGun.LoopEnd.byExitCommand :=
  ((c4_main_loop 250 ["A", "b", "Exit", "b"]).1).mpr
    ⟨"Exit", by decide, by decide⟩

/-- C5: when the cached shapefile is absent and the Geofabrik download
answers with a status other than 200, the run has created the temporary
directory, never deletes it, and ends with `exit()`. -/
theorem c5_no_cleanup_on_failed_download (e : Pathos.Env)
    (hc : (Pathos.truthy e.instanceId && Pathos.truthy e.clientId &&
      Pathos.truthy e.clientSecret) = true)
    (hshp : e.shpExists = false) (hst : e.status ≠ 200) :
    Pathos.Action.createTempDir ∈ Pathos.runScript e ∧
    Pathos.Action.removeTempDir ∉ Pathos.runScript e ∧
    (Pathos.runScript e).getLast? = some Pathos.Action.exitProc := by
  have htrace : Pathos.runScript e =
      [Pathos.Action.mkdirShapefiles, Pathos.Action.createTempDir,
        Pathos.Action.printMsg "Descargando shapefile desde Geofabrik...",
        Pathos.Action.httpGetShapefile,
        Pathos.Action.printMsg "Error al descargar el shapefile.",
        Pathos.Action.exitProc] := by
    simp [Pathos.runScript, hc, hshp, hst]
  rw [htrace]
  decide

/-- Instantiation of `c5_no_cleanup_on_failed_download` at a 404 run. -/
theorem c5_no_cleanup_on_failed_download_witness :
    Pathos.Action.createTempDir ∈ Pathos.runScript Pathos.failedDownloadEnv ∧
    Pathos.Action.removeTempDir ∉ Pathos.runScript Pathos.failedDownloadEnv ∧
    (Pathos.runScript Pathos.failedDownloadEnv).getLast? =
      some Pathos.Action.exitProc :=
  c5_no_cleanup_on_failed_download Pathos.failedDownloadEnv (by decide)
    (by decide) (by decide)

/-- C6: the claim that download, extraction, and the move of the four
components happen if and only if the cached shapefile is absent is false:
when the cache is absent but the download answers 404, the script exits
before extracting or moving anything, so the left side fails while the right
side holds. -/
theorem c6_download_iff_refuted :
    ¬ ((Pathos.Action.httpGetShapefile ∈ Pathos.runScript Pathos.failedDownloadEnv ∧
        Pathos.Action.extractZip ∈ Pathos.runScript Pathos.failedDownloadEnv ∧
        ∀ ext ∈ Pathos.componentExts,
          Pathos.Action.moveComponent ext ∈ Pathos.runScript Pathos.failedDownloadEnv) ↔
      Pathos.failedDownloadEnv.shpExists = false) := by
  decide

/-- C6 (amended): given credentials, the shapefile HTTP request is issued iff
the cached `.shp` is absent; the extraction additionally requires HTTP 200;
the move of the four components additionally requires the roads `.shp` to be
found in the archive; and when the cached file exists no shapefile network
request is issued and the cached copy is loaded. -/
theorem c6_shapefile_cache (e : Pathos.Env)
    (hc : (Pathos.truthy e.instanceId && Pathos.truthy e.clientId &&
      Pathos.truthy e.clientSecret) = true) :
    (Pathos.Action.httpGetShapefile ∈ Pathos.runScript e ↔
      e.shpExists = false) ∧
    (Pathos.Action.extractZip ∈ Pathos.runScript e ↔
      e.shpExists = false ∧ e.status = 200) ∧
    ((∀ ext ∈ Pathos.componentExts,
        Pathos.Action.moveComponent ext ∈ Pathos.runScript e) ↔
      e.shpExists = false ∧ e.status = 200 ∧ e.roadsFound = true) ∧
    (e.shpExists = true →
      Pathos.Action.httpGetShapefile ∉ Pathos.runScript e ∧
      Pathos.Action.loadRoads ∈ Pathos.runScript e) := by
  by_cases hshp : e.shpExists = true <;>
    by_cases hst : e.status = 200 <;>
      by_cases hrf : e.roadsFound = true <;>
        by_cases hrl : e.roadsLoadOk = true <;>
          by_cases hio : e.imageOk = true <;>
            simp_all [Pathos.runScript, Pathos.afterShapefile, Pathos.componentExts]
  all_goals exact ⟨".shp", fun h => absurd rfl h⟩

/-- Instantiation of `c6_shapefile_cache` at a fully successful uncached
run. -/
theorem c6_shapefile_cache_witness :
    Pathos.Action.httpGetShapefile ∈ Pathos.runScript Pathos.happyEnv ↔
      Pathos.happyEnv.shpExists = false :=
  (c6_shapefile_cache Pathos.happyEnv (by decide)).1

/-- C7: in `cocuta.py`, each table is created with `len(data) + 1` rows and
`len(headers)` columns, each data row has exactly as many entries as its
header list (6 for the route table, 5 for the timeline table), and every
cell write of `add_table` stays within the table bounds. -/
theorem c7_tables_in_bounds :
    (∀ row ∈ Cocuta.route_data, row.length = 6) ∧
    Cocuta.route_headers.length = 6 ∧
    (∀ row ∈ Cocuta.timeline_data, row.length = 5) ∧
    Cocuta.timeline_headers.length = 5 ∧
    (Cocuta.add_table Cocuta.route_data Cocuta.route_headers).1 = (11, 6) ∧
    (Cocuta.add_table Cocuta.timeline_data Cocuta.timeline_headers).1 = (11, 5) ∧
    (∀ w ∈ (Cocuta.add_table Cocuta.route_data Cocuta.route_headers).2,
      Cocuta.inBounds (Cocuta.add_table Cocuta.route_data Cocuta.route_headers).1 w) ∧
    (∀ w ∈ (Cocuta.add_table Cocuta.timeline_data Cocuta.timeline_headers).2,
      Cocuta.inBounds
        (Cocuta.add_table Cocuta.timeline_data Cocuta.timeline_headers).1 w) := by
  decide

/-- Instantiation of `c7_tables_in_bounds`: the first route row has six
entries. -/
theorem c7_tables_in_bounds_witness :
    (["1", "Bogotá → Cúcuta, Colombia", "560 km", "Troncal 55, Troncal 66",
      "10-12 hours",
      "Border area with Venezuela, potential instability. Military escort recommended."] :
        List String).length = 6 :=
  c7_tables_in_bounds.1 _ (by decide)

/-- C8: every traced ray is parallel to the optical axis (direction cosines
`(0, 0, 1)`), there are exactly 69 of them, and a grid point's ray is pushed
iff its squared distance from the axis is strictly below
`BEAM_RADIUS^2` (so boundary points are excluded). -/
theorem c8_trace_rays_bundle :
    LizorGun.trace_rays.length = 69 ∧
    (∀ r ∈ LizorGun.trace_rays, r.dCos = (0, 0, 1)) ∧
    ∀ i ∈ LizorGun.gridRange, ∀ j ∈ LizorGun.gridRange,
      (LizorGun.gridRay i j ∈ LizorGun.trace_rays ↔
        (((i : ℚ) / (LizorGun.GRID_SIZE : ℚ)) * LizorGun.BEAM_RADIUS) ^ 2 +
            (((j : ℚ) / (LizorGun.GRID_SIZE : ℚ)) * LizorGun.BEAM_RADIUS) ^ 2 <
          LizorGun.BEAM_RADIUS ^ 2) := by
  refine ⟨?_, ?_, ?_⟩
  · rw [LizorGun.trace_rays_matches_int_guard]
    decide
  · intro r hr
    rcases LizorGun.mem_trace_rays.mp hr with ⟨i, -, j, -, -, heq⟩
    rw [← heq]
    show ((0.0 : ℚ), (0.0 : ℚ), (1.0 : ℚ)) = ((0 : ℚ), (0 : ℚ), (1 : ℚ))
    norm_num
  · intro i hi j hj
    rw [LizorGun.guard_iff, LizorGun.mem_trace_rays]
    constructor
    · rintro ⟨i', -, j', -, hlt, heq⟩
      obtain ⟨rfl, rfl⟩ := LizorGun.gridRay_inj heq.symm
      exact hlt
    · intro hlt
      exact ⟨i, hi, j, hj, hlt, rfl⟩

/-- Instantiation of `c8_trace_rays_bundle`: the axial ray is traced. -/
theorem c8_trace_rays_bundle_witness :
    LizorGun.gridRay 0 0 ∈ LizorGun.trace_rays :=
  ((c8_trace_rays_bundle.2.2 0 (by decide) 0 (by decide))).mpr
    (by norm_num [LizorGun.GRID_SIZE, LizorGun.BEAM_RADIUS])

/-- C9: the two optical configurations agree outside the YAG crystal — the
cumulative axial thickness from the object plane to the first lens surface
`L1a` is `35.0` with and without the crystal, and the surfaces from `L1a`
onward are identical in the two configurations. -/
theorem c9_geometry_agreement :
    ((((LizorGun.setup_optical_system true).take 3).map
        fun s => s.thickness).sum = 35 ∧
      (((LizorGun.setup_optical_system false).take 3).map
        fun s => s.thickness).sum = 35) ∧
    (LizorGun.setup_optical_system true).drop 3 =
      (LizorGun.setup_optical_system false).drop 3 := by
  refine ⟨⟨?_, ?_⟩, rfl⟩
  · norm_num [LizorGun.setup_optical_system, LizorGun.OBJ_THICKNESS,
      LizorGun.YAG_THICKNESS, LizorGun.YAG_TO_LENS]
  · norm_num [LizorGun.setup_optical_system, LizorGun.OBJ_THICKNESS,
      LizorGun.YAG_THICKNESS, LizorGun.YAG_TO_LENS]

/-- C10: for strictly positive wavelength and temperature the `planck`
function is total and finite — its exponent is strictly positive, the
`x > 700` overflow guard returns `0`, and otherwise the denominator
`exp x - 1` is strictly positive (so no division by zero occurs) and the
returned value is the Planck expression itself. -/
theorem c10_planck_safe (lambda_m T : ℝ) (hl : 0 < lambda_m) (hT : 0 < T) :
    0 < LizorGun.planckExponent lambda_m T ∧
    (LizorGun.planckExponent lambda_m T > 700 →
      LizorGun.planck lambda_m T = 0) ∧
    (LizorGun.planckExponent lambda_m T ≤ 700 →
      0 < Real.exp (LizorGun.planckExponent lambda_m T) - 1 ∧
      Real.exp (LizorGun.planckExponent lambda_m T) - 1 ≠ 0 ∧
      LizorGun.planck lambda_m T =
        (1 / lambda_m ^ 5) /
          (Real.exp (LizorGun.planckExponent lambda_m T) - 1)) := by
  have hh : (0 : ℝ) < LizorGun.hPlanck := by norm_num [LizorGun.hPlanck]
  have hc : (0 : ℝ) < LizorGun.cLight := by norm_num [LizorGun.cLight]
  have hk : (0 : ℝ) < LizorGun.kBoltz := by norm_num [LizorGun.kBoltz]
  have hx : 0 < LizorGun.planckExponent lambda_m T := by
    unfold LizorGun.planckExponent
    exact div_pos (mul_pos hh hc) (mul_pos (mul_pos hl hk) hT)
  refine ⟨hx, ?_, ?_⟩
  · intro h
    unfold LizorGun.planck
    rw [if_pos h]
  · intro h
    have hgt : ¬ LizorGun.planckExponent lambda_m T > 700 := not_lt.mpr h
    have hexp : 1 < Real.exp (LizorGun.planckExponent lambda_m T) :=
      Real.one_lt_exp_iff.mpr hx
    refine ⟨by linarith, by linarith, ?_⟩
    unfold LizorGun.planck
    rw [if_neg hgt]

/-- Instantiation of `c10_planck_safe` at wavelength `1` and temperature
`1`. -/
theorem c10_planck_safe_witness : 0 < LizorGun.planckExponent 1 1 :=
  (c10_planck_safe 1 1 one_pos one_pos).1

end Warner
